import Mathlib

/-!
Verification of the EOS-80 seawater library (`pyeos80.py`).

The source is a pure-Python numeric library: a generic Horner polynomial
evaluator `poly1d` plus fixed coefficient tables, composed into the secant
bulk modulus `calseck`, the SMOW pure-water density `caldsmow`, the
atmospheric-pressure density `caldens0` and the full density `caldens`.

The embedding works over exact real arithmetic: every Python float
operation is mapped to the corresponding operation on `ℝ`.  Python's `**`
on a nonnegative base is `Real.rpow`.  Two refinements capture the parts
of Python semantics that exact real arithmetic cannot express:

* pure-Python float division by zero raises `ZeroDivisionError`; the
  variant `caldensE` returns `Option ℝ`, with `none` for the raised error;
* pure-Python `**` with a negative base and fractional exponent returns a
  complex number; the variants `caldens0C`, `calseck0C`, `calseck1C`
  evaluate over `ℂ` with the principal complex power, which is what CPython
  computes (up to rounding) for a negative salinity;
* a NaN/infinity-aware value type `PFloat` embeds the IEEE special-value
  propagation rules (without rounding) for the polynomial evaluator.
-/

-- Constants (coefficient tables transcribed from the source)

/-- Scale factor between ITS-90 and ITS-68 temperatures. -/
def T68SCL : ℝ := 1.00024

/-- Conversion factor from decibar applied to pressures (source value 1e-1). -/
def DB2KPA : ℝ := 1e-1

/-- Pure-water secant bulk modulus, zeroth pressure term coefficients. -/
def SECKPURE0 : List ℝ := [19652.21, 148.4206, -2.327105, 1.360477e-2, -5.155288e-5]

/-- Pure-water secant bulk modulus, first pressure term coefficients. -/
def SECKPURE1 : List ℝ := [3.239908, 1.43713e-3, 1.16092e-4, -5.77905e-7]

/-- Pure-water secant bulk modulus, second pressure term coefficients. -/
def SECKPURE2 : List ℝ := [8.50935e-5, -6.12293e-6, 5.2787e-8]

/-- Salinity correction (linear in S) for the zeroth pressure term. -/
def SECK02 : List ℝ := [54.6746, -0.603459, 1.09987e-2, -6.1670e-5]

/-- Salinity correction (S^1.5) for the zeroth pressure term. -/
def SECK03 : List ℝ := [7.944e-2, 1.6483e-2, -5.3009e-4]

/-- Salinity correction (linear in S) for the first pressure term. -/
def SECK12 : List ℝ := [2.2838e-3, -1.0981e-5, -1.6078e-6]

/-- Salinity correction (S^1.5) scalar for the first pressure term. -/
def SECK13 : ℝ := 1.91075e-4

/-- Salinity correction (linear in S) for the second pressure term. -/
def SECK2 : List ℝ := [-9.9348e-7, 2.0816e-8, 9.1697e-10]

/-- Standard Mean Ocean Water density coefficients. -/
def SMOW : List ℝ := [999.842594, 6.793952e-2, -9.095290e-3, 1.001685e-4, -1.120083e-6, 6.536332e-9]

/-- Density salinity-correction coefficients (linear in S). -/
def DENS02 : List ℝ := [8.24493e-1, -4.0899e-3, 7.6438e-5, -8.2467e-7, 5.3875e-9]

/-- Density salinity-correction coefficients (S^1.5). -/
def DENS03 : List ℝ := [-5.72466e-3, 1.0227e-4, -1.6546e-6]

/-- Density salinity-correction scalar (S^2). -/
def DENS04 : ℝ := 4.8314e-4

/-- Evaluate a polynomial in one variable by Horner's rule, iterating the
coefficients from highest degree to lowest with `y = y*x + coef`.
The source function is duck-typed; the embedding is generic in the carrier,
so the same definition serves `ℝ`, `ℂ` and the IEEE value type `PFloat`. -/
def poly1d {R : Type*} [Mul R] [Add R] [Zero R] (x : R) (coefs : List R) : R :=
  coefs.reverse.foldl (fun y coef => y * x + coef) 0

noncomputable section

-- Secant bulk modulus functions

/-- Secant bulk modulus of pure water, zeroth pressure term. -/
def calseckpure0 (t68 : ℝ) : ℝ :=
  poly1d t68 SECKPURE0

/-- Secant bulk modulus of pure water, first pressure term. -/
def calseckpure1 (t68 : ℝ) : ℝ :=
  poly1d t68 SECKPURE1

/-- Secant bulk modulus of pure water, second pressure term. -/
def calseckpure2 (t68 : ℝ) : ℝ :=
  poly1d t68 SECKPURE2

/-- Secant bulk modulus of seawater, zeroth pressure term. -/
def calseck0 (spsu t68 : ℝ) : ℝ :=
  let k0 := calseckpure0 t68
  let k2 := poly1d t68 SECK02
  let k3 := poly1d t68 SECK03
  k0 + k2 * spsu + k3 * spsu ^ (1.5 : ℝ)

/-- Secant bulk modulus of seawater, first pressure term. -/
def calseck1 (spsu t68 : ℝ) : ℝ :=
  let a0 := calseckpure1 t68
  let a2 := poly1d t68 SECK12
  a0 + a2 * spsu + SECK13 * spsu ^ (1.5 : ℝ)

/-- Secant bulk modulus of seawater, second pressure term. -/
def calseck2 (spsu t68 : ℝ) : ℝ :=
  let b0 := calseckpure2 t68
  let b2 := poly1d t68 SECK2
  b0 + b2 * spsu

/-- Secant bulk modulus of seawater at salinity, ITS-90 temperature and
pressure in decibar. -/
def calseck (spsu t90 pdb : ℝ) : ℝ :=
  let t68 := t90 * T68SCL
  let pkpa := pdb * DB2KPA
  let k0 := calseck0 spsu t68
  let a := calseck1 spsu t68
  let b := calseck2 spsu t68
  poly1d pkpa [k0, a, b]

-- Reference pure water (standard mean ocean water) functions

/-- Density of pure water (SMOW) at ITS-90 temperature. -/
def caldsmow (t90 : ℝ) : ℝ :=
  let t68 := t90 * T68SCL
  poly1d t68 SMOW

-- Atmospheric pressure functions

/-- Density of seawater at atmospheric pressure. -/
def caldens0 (spsu t90 : ℝ) : ℝ :=
  let sqrts := spsu ^ (0.5 : ℝ)
  let t68 := t90 * T68SCL
  let dsmow := caldsmow t90
  let b := poly1d t68 DENS02
  let c := poly1d t68 DENS03
  poly1d sqrts [dsmow, 0, b, c, DENS04]

-- Density functions

/-- Density of seawater, idealized real-arithmetic reading (total division). -/
def caldens (spsu t90 pdb : ℝ) : ℝ :=
  let dens0 := caldens0 spsu t90
  let seck := calseck spsu t90 pdb
  let pkpa := pdb * DB2KPA
  dens0 / (1 - pkpa / seck)

-- Pure-Python division semantics: float division by zero raises

/-- Pure-Python float division: `a / b` raises `ZeroDivisionError` when
`b = 0`, embedded as `none`. -/
def pydiv (a b : ℝ) : Option ℝ :=
  if b = 0 then none else some (a / b)

/-- `caldens` with pure-Python division semantics: each `/` in
`dens0 / (1 - pkpa/seck)` may raise `ZeroDivisionError` (`none`). -/
def caldensE (spsu t90 pdb : ℝ) : Option ℝ :=
  let dens0 := caldens0 spsu t90
  let seck := calseck spsu t90 pdb
  let pkpa := pdb * DB2KPA
  (pydiv pkpa seck).bind fun q => pydiv dens0 (1 - q)

-- Pure-Python power semantics at negative base: the result is complex

/-- `caldens0` as executed by CPython when the salinity is negative:
`spsu ** 0.5` with a negative base and fractional exponent returns the
principal complex power, and the remaining arithmetic proceeds over `ℂ`
with the real-valued temperature terms unchanged. -/
def caldens0C (spsu : ℂ) (t90 : ℝ) : ℂ :=
  let sqrts : ℂ := spsu ^ (0.5 : ℂ)
  let t68 := t90 * T68SCL
  let dsmow := caldsmow t90
  let b := poly1d t68 DENS02
  let c := poly1d t68 DENS03
  poly1d sqrts [(dsmow : ℂ), 0, (b : ℂ), (c : ℂ), (DENS04 : ℂ)]

/-- `calseck0` as executed by CPython at negative salinity: the
`spsu ** 1.5` term is the principal complex power. -/
def calseck0C (spsu : ℂ) (t68 : ℝ) : ℂ :=
  let k0 := calseckpure0 t68
  let k2 := poly1d t68 SECK02
  let k3 := poly1d t68 SECK03
  (k0 : ℂ) + (k2 : ℂ) * spsu + (k3 : ℂ) * spsu ^ (1.5 : ℂ)

/-- `calseck1` as executed by CPython at negative salinity: the
`spsu ** 1.5` term is the principal complex power. -/
def calseck1C (spsu : ℂ) (t68 : ℝ) : ℂ :=
  let a0 := calseckpure1 t68
  let a2 := poly1d t68 SECK12
  (a0 : ℂ) + (a2 : ℂ) * spsu + (SECK13 : ℂ) * spsu ^ (1.5 : ℂ)

-- A concrete input on the singular locus `K(S,T,P) = P * DB2KPA`.
-- At salinity 0 and ITS-68 temperature 50 the secant bulk modulus is the
-- quadratic `seckC + (seckA + 1) * q + seckB * q^2` in the converted
-- pressure `q`, so `K = q` exactly at the quadratic root `q0sing`.

/-- `calseckpure1 50 - 1`: linear coefficient of `K(0,T,10*q) - q` in `q`. -/
def seckA : ℝ := calseckpure1 50 - 1

/-- `calseckpure2 50`: quadratic coefficient of `K(0,T,10*q) - q` in `q`. -/
def seckB : ℝ := calseckpure2 50

/-- `calseckpure0 50`: constant coefficient of `K(0,T,10*q) - q` in `q`. -/
def seckC : ℝ := calseckpure0 50

/-- Discriminant of the singular-pressure quadratic. -/
def seckD : ℝ := seckA ^ 2 - 4 * seckB * seckC

/-- A converted pressure at which `K(0, 50/T68SCL, 10*q) = q`. -/
def q0sing : ℝ := (-seckA - Real.sqrt seckD) / (2 * seckB)

/-- A pressure in decibar at which the density formula divides by zero. -/
def p0sing : ℝ := 10 * q0sing

end

-- IEEE special-value propagation (no rounding): used for `poly1d` at
-- non-finite arguments

/-- A Python float, as far as special-value propagation is concerned:
NaN, the two infinities, or an exact finite value. Rounding and overflow
are not modelled; only the IEEE NaN/infinity propagation rules are. -/
inductive PFloat where
  | nan : PFloat
  | pinf : PFloat
  | ninf : PFloat
  | fin : ℚ → PFloat
deriving DecidableEq

/-- IEEE addition on special values; exact addition on finite values. -/
def PFloat.add : PFloat → PFloat → PFloat
  | nan, _ => nan
  | _, nan => nan
  | pinf, ninf => nan
  | ninf, pinf => nan
  | pinf, _ => pinf
  | _, pinf => pinf
  | ninf, _ => ninf
  | _, ninf => ninf
  | fin a, fin b => fin (a + b)

/-- IEEE multiplication on special values (`0 * inf = NaN`); exact
multiplication on finite values. -/
def PFloat.mul : PFloat → PFloat → PFloat
  | nan, _ => nan
  | _, nan => nan
  | pinf, pinf => pinf
  | pinf, ninf => ninf
  | ninf, pinf => ninf
  | ninf, ninf => pinf
  | pinf, fin b => if 0 < b then pinf else if b < 0 then ninf else nan
  | fin a, pinf => if 0 < a then pinf else if a < 0 then ninf else nan
  | ninf, fin b => if 0 < b then ninf else if b < 0 then pinf else nan
  | fin a, ninf => if 0 < a then ninf else if a < 0 then pinf else nan
  | fin a, fin b => fin (a * b)

instance : Add PFloat := ⟨PFloat.add⟩

instance : Mul PFloat := ⟨PFloat.mul⟩

instance : Zero PFloat := ⟨PFloat.fin 0⟩

/-- Whether a `PFloat` is a finite value. -/
def PFloat.isFinite : PFloat → Bool
  | fin _ => true
  | _ => false

-- Helper lemmas about the polynomial evaluator

/-- Horner evaluation peels off the constant coefficient. -/
lemma poly1d_cons {R : Type*} [Mul R] [Add R] [Zero R] (x c : R) (cs : List R) :
    poly1d x (c :: cs) = poly1d x cs * x + c := by
  simp [poly1d, List.foldl_append]

/-- Horner evaluation agrees with the direct power sum. -/
lemma poly1d_eq_sum {R : Type*} [CommSemiring R] (x : R) (coefs : List R) :
    poly1d x coefs = ∑ i ∈ Finset.range coefs.length, coefs.getD i 0 * x ^ i := by
  induction coefs with
  | nil => simp [poly1d]
  | cons c cs ih =>
      rw [poly1d_cons, ih, List.length_cons, Finset.sum_range_succ']
      simp [pow_succ, Finset.sum_mul, mul_assoc]

/-- Explicit form of Horner evaluation on a three-coefficient table. -/
lemma poly1d_three {R : Type*} [CommSemiring R] (x a b c : R) :
    poly1d x [a, b, c] = a + b * x + c * x ^ 2 := by
  simp [poly1d]
  ring

/-- Explicit form of Horner evaluation on a five-coefficient table. -/
lemma poly1d_five {R : Type*} [CommSemiring R] (x a b c d e : R) :
    poly1d x [a, b, c, d, e] = a + b * x + c * x ^ 2 + d * x ^ 3 + e * x ^ 4 := by
  simp [poly1d]
  ring

-- Helper lemmas about the composed functions

/-- The secant bulk modulus is the quadratic `k0 + a*pkpa + b*pkpa^2`. -/
lemma calseck_expand (spsu t90 pdb : ℝ) :
    calseck spsu t90 pdb =
      calseck0 spsu (t90 * T68SCL) + calseck1 spsu (t90 * T68SCL) * (pdb * DB2KPA) +
        calseck2 spsu (t90 * T68SCL) * (pdb * DB2KPA) ^ 2 := by
  simp [calseck, poly1d_three]

/-- At zero pressure the density reduces to the atmospheric-pressure density. -/
lemma caldens_zero_pressure (spsu t90 : ℝ) : caldens spsu t90 0 = caldens0 spsu t90 := by
  simp [caldens]

/-- At zero salinity the atmospheric-pressure density reduces to SMOW. -/
lemma caldens0_zero_sal (t90 : ℝ) : caldens0 0 t90 = caldsmow t90 := by
  rw [caldens0]
  rw [Real.zero_rpow (by norm_num : (0.5 : ℝ) ≠ 0)]
  simp [poly1d_five]

-- Claim theorems

/-- C1: for every salinity, temperature and pressure, `caldens` returns
`caldens0 S T / (1 - P_kPa / calseck S T P)` with `P_kPa = P * 0.1`. -/
theorem C1_caldens_formula (spsu t90 pdb : ℝ) :
    caldens spsu t90 pdb =
      caldens0 spsu t90 / (1 - pdb * 0.1 / calseck spsu t90 pdb) := by
  norm_num [caldens, DB2KPA]

/-- C2: `calseck` converts the temperature to ITS-68 (× 1.00024) and the
pressure by × 0.1, evaluates the three bulk-modulus terms at the converted
temperature, and evaluates them as a 3-coefficient polynomial in the
converted pressure via the polynomial evaluator, so that
`K = k0 + a*P' + b*P'^2`. -/
theorem C2_calseck_composition (spsu t90 pdb : ℝ) :
    calseck spsu t90 pdb =
      poly1d (pdb * 0.1)
        [calseck0 spsu (t90 * 1.00024), calseck1 spsu (t90 * 1.00024),
          calseck2 spsu (t90 * 1.00024)] ∧
    calseck spsu t90 pdb =
      calseck0 spsu (t90 * 1.00024) + calseck1 spsu (t90 * 1.00024) * (pdb * 0.1) +
        calseck2 spsu (t90 * 1.00024) * (pdb * 0.1) ^ 2 := by
  constructor <;> norm_num [calseck, T68SCL, DB2KPA, poly1d_three]

/-- C3: over exact real arithmetic, the Horner evaluator `poly1d` equals the
direct power sum `c0 + c1*x + ... + cn*x^n` of its coefficient table. -/
theorem C3_poly1d_power_sum (x : ℝ) (coefs : List ℝ) :
    poly1d x coefs = ∑ i ∈ Finset.range coefs.length, coefs.getD i 0 * x ^ i :=
  poly1d_eq_sum x coefs

/-- C8: for every salinity and temperature, the full density at zero
pressure equals the atmospheric-pressure density. -/
theorem C8_caldens_at_zero_pressure (spsu t90 : ℝ) :
    caldens spsu t90 0 = caldens0 spsu t90 :=
  caldens_zero_pressure spsu t90

/-- C10: at zero salinity the atmospheric-pressure density equals the pure
water (SMOW) density: the square root of 0 is 0, so the salinity polynomial
collapses to its constant term. -/
theorem C10_caldens0_fresh_water (t90 : ℝ) :
    caldens0 0 t90 = caldsmow t90 :=
  caldens0_zero_sal t90

/-- Explicit form of Horner evaluation on a four-coefficient table. -/
lemma poly1d_four {R : Type*} [CommSemiring R] (x a b c d : R) :
    poly1d x [a, b, c, d] = a + b * x + c * x ^ 2 + d * x ^ 3 := by
  simp [poly1d]
  ring

/-- Explicit form of Horner evaluation on a six-coefficient table. -/
lemma poly1d_six {R : Type*} [CommSemiring R] (x a b c d e f : R) :
    poly1d x [a, b, c, d, e, f] =
      a + b * x + c * x ^ 2 + d * x ^ 3 + e * x ^ 4 + f * x ^ 5 := by
  simp [poly1d]
  ring

-- Claim C9: the polynomial evaluator on a single-coefficient table

/-- C9 counterexample: on the IEEE value model, evaluating the
single-coefficient table `(5,)` at NaN returns NaN, not the constant 5,
because the Horner accumulation starts with `0 * x` and `0 * NaN = NaN`. -/
theorem C9_counterexample :
    poly1d PFloat.nan [PFloat.fin 5] = PFloat.nan ∧
      poly1d PFloat.nan [PFloat.fin 5] ≠ PFloat.fin 5 := by
  constructor <;> decide

/-- C9 (amended): on a single-coefficient table, `poly1d` returns the
constant for every finite argument, and NaN for NaN and ±infinity
arguments (IEEE `0 * x` propagation). -/
theorem C9_poly1d_single_coefficient (x : PFloat) (c : ℚ) :
    poly1d x [PFloat.fin c] =
      if x.isFinite then PFloat.fin c else PFloat.nan := by
  cases x with
  | nan => rfl
  | pinf => rfl
  | ninf => rfl
  | fin q =>
      show PFloat.fin (0 * q + c) = if true then PFloat.fin c else PFloat.nan
      norm_num

-- Claim C5: negative salinity under pure-Python power semantics

/-- The principal value of `exp(pi*I/2)` is `I`. -/
lemma exp_pi_I_half : Complex.exp (Real.pi * Complex.I * (0.5 : ℂ)) = Complex.I := by
  have h : (Real.pi : ℂ) * Complex.I * (0.5 : ℂ) = ((Real.pi / 2 : ℝ) : ℂ) * Complex.I := by
    push_cast
    ring
  rw [h, Complex.exp_mul_I, ← Complex.ofReal_cos, ← Complex.ofReal_sin,
    Real.cos_pi_div_two, Real.sin_pi_div_two]
  simp

/-- CPython's `(-1) ** 0.5` is the principal power `I` (up to rounding). -/
lemma neg_one_cpow_half : (-1 : ℂ) ^ (0.5 : ℂ) = Complex.I := by
  rw [Complex.cpow_def_of_ne_zero (by norm_num), Complex.log_neg_one, exp_pi_I_half]

/-- CPython's `(-1) ** 1.5` is the principal power `-I` (up to rounding). -/
lemma neg_one_cpow_three_half : (-1 : ℂ) ^ (1.5 : ℂ) = -Complex.I := by
  rw [Complex.cpow_def_of_ne_zero (by norm_num), Complex.log_neg_one]
  have h : (Real.pi : ℂ) * Complex.I * (1.5 : ℂ) =
      Real.pi * Complex.I + Real.pi * Complex.I * (0.5 : ℂ) := by
    ring
  rw [h, Complex.exp_add, Complex.exp_pi_mul_I, exp_pi_I_half]
  ring

/-- At salinity -1, `caldens0` evaluates over `ℂ` to an explicit value whose
imaginary part is minus the `DENS03` polynomial. -/
lemma caldens0C_neg_one (t90 : ℝ) :
    caldens0C (-1) t90 =
      ((caldsmow t90 - poly1d (t90 * T68SCL) DENS02 + DENS04 : ℝ) : ℂ) -
        ((poly1d (t90 * T68SCL) DENS03 : ℝ) : ℂ) * Complex.I := by
  rw [caldens0C, neg_one_cpow_half, poly1d_five]
  have h2 : Complex.I ^ 2 = -1 := Complex.I_sq
  have h3 : Complex.I ^ 3 = -Complex.I := by
    rw [pow_succ, h2]
    ring
  have h4 : Complex.I ^ 4 = 1 := by
    rw [show (4 : ℕ) = 2 * 2 from rfl, pow_mul, h2]
    ring
  rw [h2, h3, h4]
  push_cast
  ring

/-- At salinity -1, `calseck0` evaluates over `ℂ` to an explicit value whose
imaginary part is minus the `SECK03` polynomial. -/
lemma calseck0C_neg_one (t68 : ℝ) :
    calseck0C (-1) t68 =
      ((calseckpure0 t68 - poly1d t68 SECK02 : ℝ) : ℂ) -
        ((poly1d t68 SECK03 : ℝ) : ℂ) * Complex.I := by
  rw [calseck0C, neg_one_cpow_three_half]
  push_cast
  ring

/-- At salinity -1, `calseck1` evaluates over `ℂ` to an explicit value whose
imaginary part is `-SECK13`. -/
lemma calseck1C_neg_one (t68 : ℝ) :
    calseck1C (-1) t68 =
      ((calseckpure1 t68 - poly1d t68 SECK12 : ℝ) : ℂ) -
        ((SECK13 : ℝ) : ℂ) * Complex.I := by
  rw [calseck1C, neg_one_cpow_three_half]
  push_cast
  ring

/-- C5 counterexample: at salinity -1 and temperature 25, pure-Python `**`
makes `caldens0` return a complex number with nonzero imaginary part — a
well-defined non-real value, not NaN. -/
theorem C5_counterexample : (caldens0C (-1) 25).im ≠ 0 := by
  rw [caldens0C_neg_one]
  simp only [Complex.sub_im, Complex.ofReal_im, Complex.mul_im, Complex.I_im,
    Complex.I_re, Complex.ofReal_re]
  norm_num [DENS03, T68SCL, poly1d_three]

/-- C5 (amended): at negative salinity (here -1, temperature 25 ITS-90),
`caldens0` and the salinity^1.5 terms of `calseck0` and `calseck1` evaluate,
under pure-Python power semantics, to complex numbers with nonzero imaginary
part (not NaN), and no error is raised. -/
theorem C5_negative_salinity_complex :
    (caldens0C (-1) 25).im ≠ 0 ∧ (calseck0C (-1) (25 * T68SCL)).im ≠ 0 ∧
      (calseck1C (-1) (25 * T68SCL)).im ≠ 0 := by
  refine ⟨?_, ?_, ?_⟩
  · rw [caldens0C_neg_one]
    simp only [Complex.sub_im, Complex.ofReal_im, Complex.mul_im, Complex.I_im,
      Complex.I_re, Complex.ofReal_re]
    norm_num [DENS03, T68SCL, poly1d_three]
  · rw [calseck0C_neg_one]
    simp only [Complex.sub_im, Complex.ofReal_im, Complex.mul_im, Complex.I_im,
      Complex.I_re, Complex.ofReal_re]
    norm_num [SECK03, T68SCL, poly1d_three]
  · rw [calseck1C_neg_one]
    simp only [Complex.sub_im, Complex.ofReal_im, Complex.mul_im, Complex.I_im,
      Complex.I_re, Complex.ofReal_re]
    norm_num [SECK13]

-- Claim C4: division by zero on the singular locus raises, does not return Inf

/-- The quadratic coefficient of the singular-pressure equation is nonzero. -/
lemma seckB_ne_zero : seckB ≠ 0 := by
  norm_num [seckB, calseckpure2, SECKPURE2, poly1d_three]

/-- The discriminant of the singular-pressure quadratic is nonnegative. -/
lemma seckD_nonneg : 0 ≤ seckD := by
  norm_num [seckD, seckA, seckB, seckC, calseckpure0, calseckpure1, calseckpure2,
    SECKPURE0, SECKPURE1, SECKPURE2, poly1d_three, poly1d_four, poly1d_five]

/-- `q0sing` is a root of the singular-pressure quadratic. -/
lemma q0sing_root : seckB * q0sing ^ 2 + seckA * q0sing + seckC = 0 := by
  have hD : Real.sqrt seckD ^ 2 = seckA ^ 2 - 4 * seckB * seckC := by
    rw [Real.sq_sqrt seckD_nonneg, seckD]
  have hB := seckB_ne_zero
  rw [q0sing]
  field_simp
  linear_combination (2 * seckB ^ 2) * hD

/-- At zero salinity the bulk-modulus zeroth term is the pure-water term. -/
lemma calseck0_zero_sal (t68 : ℝ) : calseck0 0 t68 = calseckpure0 t68 := by
  rw [calseck0, Real.zero_rpow (by norm_num : (1.5 : ℝ) ≠ 0)]
  simp

/-- At zero salinity the bulk-modulus first term is the pure-water term. -/
lemma calseck1_zero_sal (t68 : ℝ) : calseck1 0 t68 = calseckpure1 t68 := by
  rw [calseck1, Real.zero_rpow (by norm_num : (1.5 : ℝ) ≠ 0)]
  simp

/-- At zero salinity the bulk-modulus second term is the pure-water term. -/
lemma calseck2_zero_sal (t68 : ℝ) : calseck2 0 t68 = calseckpure2 t68 := by
  simp [calseck2]

/-- At salinity 0, ITS-90 temperature `50 / T68SCL` and pressure `p0sing`,
the secant bulk modulus equals the converted pressure exactly. -/
lemma calseck_p0sing : calseck 0 (50 / T68SCL) p0sing = p0sing * DB2KPA := by
  have ht : 50 / T68SCL * T68SCL = (50 : ℝ) := by
    rw [div_mul_cancel₀]
    norm_num [T68SCL]
  rw [calseck_expand, ht, calseck0_zero_sal, calseck1_zero_sal, calseck2_zero_sal]
  have hp : p0sing * DB2KPA = q0sing := by
    rw [p0sing, DB2KPA]
    ring_nf
  rw [hp]
  have hroot := q0sing_root
  rw [seckA, seckB, seckC] at hroot
  nlinarith [hroot]

/-- On the singular locus `K = P*DB2KPA`, the density computation divides by
zero and pure-Python float division raises `ZeroDivisionError` (`none`). -/
lemma caldensE_none_of_singular (spsu t90 pdb : ℝ)
    (h : calseck spsu t90 pdb = pdb * DB2KPA) : caldensE spsu t90 pdb = none := by
  by_cases h0 : calseck spsu t90 pdb = 0
  · have hz : pdb * DB2KPA = 0 := h.symm.trans h0
    simp [caldensE, pydiv, h0]
  · have hne : pdb * DB2KPA ≠ 0 := h ▸ h0
    simp only [caldensE, pydiv, if_neg h0, Option.bind_some, h, div_self hne]
    norm_num

/-- C4 counterexample: the concrete input `(0, 50/T68SCL, p0sing)` satisfies
`K(S,T,P) = P * DB2KPA`, and there `caldens` raises `ZeroDivisionError`
(embedded as `none`) instead of returning an infinite value. -/
theorem C4_counterexample :
    calseck 0 (50 / T68SCL) p0sing = p0sing * DB2KPA ∧
      caldensE 0 (50 / T68SCL) p0sing = none :=
  ⟨calseck_p0sing, caldensE_none_of_singular 0 (50 / T68SCL) p0sing calseck_p0sing⟩

/-- C4 (amended): for every salinity, temperature and pressure with
`K(S,T,P) = P * DB2KPA`, the division in `caldens` is by zero, and pure
Python raises `ZeroDivisionError` (embedded as `none`) rather than
returning ±Inf. -/
theorem C4_singular_zero_division (spsu t90 pdb : ℝ)
    (h : calseck spsu t90 pdb = pdb * DB2KPA) : caldensE spsu t90 pdb = none :=
  caldensE_none_of_singular spsu t90 pdb h

/-- C4 witness: the amended theorem applied at the concrete singular input. -/
theorem C4_witness : caldensE 0 (50 / T68SCL) p0sing = none :=
  C4_singular_zero_division 0 (50 / T68SCL) p0sing calseck_p0sing

-- Claim C6: the reference value at (35, 25, 0)

/-- Rational lower bound on `sqrt 35`. -/
lemma sqrt35_lb : (5.916 : ℝ) < Real.sqrt 35 := by
  have h : (5.916 : ℝ) = Real.sqrt (5.916 ^ 2) := (Real.sqrt_sq (by norm_num)).symm
  rw [h]
  exact Real.sqrt_lt_sqrt (by positivity) (by norm_num)

/-- Rational upper bound on `sqrt 35`. -/
lemma sqrt35_ub : Real.sqrt 35 < 5.9161 := by
  have h : (5.9161 : ℝ) = Real.sqrt (5.9161 ^ 2) := (Real.sqrt_sq (by norm_num)).symm
  rw [h]
  exact Real.sqrt_lt_sqrt (by norm_num) (by norm_num)

/-- The atmospheric-pressure density at (35, 25) as a linear expression in
`sqrt 35`. -/
lemma caldens0_35_25 :
    caldens0 35 25 =
      (caldsmow 25 + 35 * poly1d (25 * T68SCL) DENS02 + 1225 * DENS04) +
        (35 * poly1d (25 * T68SCL) DENS03) * Real.sqrt 35 := by
  rw [caldens0]
  have hx : (35 : ℝ) ^ (0.5 : ℝ) = Real.sqrt 35 := by
    rw [Real.sqrt_eq_rpow]
    norm_num
  rw [hx, poly1d_five]
  have h2 : Real.sqrt 35 ^ 2 = 35 := Real.sq_sqrt (by norm_num)
  have h3 : Real.sqrt 35 ^ 3 = 35 * Real.sqrt 35 := by
    rw [pow_succ, h2]
  have h4 : Real.sqrt 35 ^ 4 = 1225 := by
    rw [show (4 : ℕ) = 2 * 2 from rfl, pow_mul, h2]
    norm_num
  rw [h2, h3, h4]
  ring

/-- Exact rational value of the `sqrt`-free part of `caldens0 35 25`. -/
lemma densA_val :
    caldsmow 25 + 35 * poly1d (25 * T68SCL) DENS02 + 1225 * DENS04 =
      8001650747499464101155359707169 / 7812500000000000000000000000 := by
  norm_num [caldsmow, T68SCL, SMOW, DENS02, DENS04, poly1d_five, poly1d_six]

/-- Exact rational value of the `sqrt 35` coefficient of `caldens0 35 25`. -/
lemma densB_val :
    35 * poly1d (25 * T68SCL) DENS03 = -36766780921199 / 250000000000000 := by
  norm_num [T68SCL, DENS03, poly1d_three]

/-- C6 counterexample: the computed density at (35, 25, 0) differs from the
quoted reference value 1023.343 by more than 0.001 (it is 1023.3412…, since
the input 25 is ITS-90 and is rescaled to 25.006 on the IPTS-68 scale). -/
theorem C6_counterexample : 1 / 1000 < |caldens 35 25 0 - 1023.343| := by
  have hlb := sqrt35_lb
  have hub := sqrt35_ub
  have hv : caldens 35 25 0 - 1023.343 < -(1 / 1000) := by
    rw [caldens_zero_pressure, caldens0_35_25, densA_val, densB_val]
    linarith
  have h2 : 1 / 1000 < -(caldens 35 25 0 - 1023.343) := by linarith
  exact lt_of_lt_of_le h2 (neg_le_abs _)

/-- C6 (amended): `caldens 35 25 0` is approximately 1023.3412 kg/m^3
(within 0.0001). -/
theorem C6_caldens_value : |caldens 35 25 0 - 1023.3412| < 1 / 10000 := by
  have hlb := sqrt35_lb
  have hub := sqrt35_ub
  rw [caldens_zero_pressure, caldens0_35_25, densA_val, densB_val, abs_lt]
  constructor <;> linarith

-- Claim C7: density is non-decreasing in pressure

/-- C7: holding salinity and temperature fixed, the density is non-decreasing
in pressure. The hypotheses delimit the physically valid range: nonnegative
pressures, nonnegative surface density, the bulk modulus exceeding the
converted pressure at both evaluation points (positive compressed volume),
and `b * q1 * q2 ≤ k0` relating the pressure-term coefficients (satisfied
throughout the oceanographic range, where `k0 ≈ 2*10^4` dominates). -/
theorem C7_caldens_monotone_pressure (spsu t90 pdb1 pdb2 : ℝ)
    (hp1 : 0 ≤ pdb1) (hp12 : pdb1 ≤ pdb2)
    (hd : 0 ≤ caldens0 spsu t90)
    (hb : calseck2 spsu (t90 * T68SCL) * (pdb1 * DB2KPA) * (pdb2 * DB2KPA) ≤
      calseck0 spsu (t90 * T68SCL))
    (hK1 : pdb1 * DB2KPA < calseck spsu t90 pdb1)
    (hK2 : pdb2 * DB2KPA < calseck spsu t90 pdb2) :
    caldens spsu t90 pdb1 ≤ caldens spsu t90 pdb2 := by
  have hscl : (0 : ℝ) < DB2KPA := by norm_num [DB2KPA]
  have hq1 : 0 ≤ pdb1 * DB2KPA := mul_nonneg hp1 hscl.le
  have hq12 : pdb1 * DB2KPA ≤ pdb2 * DB2KPA := mul_le_mul_of_nonneg_right hp12 hscl.le
  have hq2 : 0 ≤ pdb2 * DB2KPA := hq1.trans hq12
  have hKpos1 : 0 < calseck spsu t90 pdb1 := lt_of_le_of_lt hq1 hK1
  have hKpos2 : 0 < calseck spsu t90 pdb2 := lt_of_le_of_lt hq2 hK2
  have hden1 : 0 < 1 - pdb1 * DB2KPA / calseck spsu t90 pdb1 := by
    rw [sub_pos, div_lt_one hKpos1]
    exact hK1
  have hden2 : 0 < 1 - pdb2 * DB2KPA / calseck spsu t90 pdb2 := by
    rw [sub_pos, div_lt_one hKpos2]
    exact hK2
  have key : pdb1 * DB2KPA * calseck spsu t90 pdb2 ≤
      pdb2 * DB2KPA * calseck spsu t90 pdb1 := by
    rw [calseck_expand spsu t90 pdb1, calseck_expand spsu t90 pdb2]
    nlinarith [mul_nonneg (sub_nonneg.2 hq12) (sub_nonneg.2 hb)]
  have hfrac : pdb1 * DB2KPA / calseck spsu t90 pdb1 ≤
      pdb2 * DB2KPA / calseck spsu t90 pdb2 := by
    rw [div_le_div_iff hKpos1 hKpos2]
    exact key
  have hsub : 1 - pdb2 * DB2KPA / calseck spsu t90 pdb2 ≤
      1 - pdb1 * DB2KPA / calseck spsu t90 pdb1 := by linarith
  simp only [caldens]
  rw [div_le_div_iff hden1 hden2]
  exact mul_le_mul_of_nonneg_left hsub hd

/-- C7 witness: the monotonicity theorem applied at salinity 0, temperature
25, pressures 0 and 1000 decibar, with every hypothesis evaluated. -/
theorem C7_witness : caldens 0 25 0 ≤ caldens 0 25 1000 := by
  apply C7_caldens_monotone_pressure
  · norm_num
  · norm_num
  · rw [caldens0_zero_sal]
    norm_num [caldsmow, T68SCL, SMOW, poly1d_six]
  · rw [calseck0_zero_sal, calseck2_zero_sal]
    norm_num [calseckpure0, calseckpure2, T68SCL, SECKPURE0, SECKPURE2,
      poly1d_three, poly1d_five, DB2KPA]
  · rw [calseck_expand, calseck0_zero_sal, calseck1_zero_sal, calseck2_zero_sal]
    norm_num [calseckpure0, calseckpure1, calseckpure2, T68SCL, SECKPURE0,
      SECKPURE1, SECKPURE2, poly1d_three, poly1d_four, poly1d_five, DB2KPA]
  · rw [calseck_expand, calseck0_zero_sal, calseck1_zero_sal, calseck2_zero_sal]
    norm_num [calseckpure0, calseckpure1, calseckpure2, T68SCL, SECKPURE0,
      SECKPURE1, SECKPURE2, poly1d_three, poly1d_four, poly1d_five, DB2KPA]
